import Mathlib

/-!
Verification development for the UAC capacity dashboard
(`src/streamlit_app/app.py`).

The program is a single-file pandas/streamlit pipeline:
load CSV → filter by date range → split off reported rows →
resample (Daily/Weekly/Monthly) → strain flag → latest-day KPI cards →
strain-days table → data-quality-flags table.

Shallow embedding conventions:
* A calendar date is a `Nat`: the number of days since 1970-01-01
  (which was a Thursday, so a day `d` is a Sunday iff `d % 7 = 3`).
  Civil (year, month, day) fields are recovered with the standard
  Gregorian conversion algorithms (`civilFromDays` / `daysFromCivil`).
* Numeric cell values are `ℚ`; a possibly-missing (NaN) cell is an
  `Option ℚ` (pandas propagates NaN through comparisons as `False`,
  which the embedding mirrors explicitly).
* A dataframe is a `List MetricRow` in file order, together with
  `Cols`, the record of which optional columns are present.
* pandas operations are translated operation by operation:
  `df[mask]` is `List.filter`, `sort_values` is `List.insertionSort`,
  `quantile(0.85)` is the linear-interpolation quantile `quantile85`,
  `resample("W"/"M").agg(...)` is `resampleWeekly`/`resampleMonthly`
  (pandas emits every bucket between the first and the last key,
  including buckets no row falls into), `.head(n)` is `List.take n`,
  Python `int()` is truncation toward zero (`pyInt`).
-/

/-! ## Calendar arithmetic -/

/-- Day-of-week bucketing for pandas `resample("W")` (weeks anchored on
Sunday, labelled by the right edge): the smallest Sunday `≥ d`.
Day 0 = 1970-01-01 is a Thursday, so Sundays are `≡ 3 [MOD 7]`. -/
def weekEnd (d : Nat) : Nat := d + (10 - d % 7) % 7

/-- Gregorian leap year. -/
def isLeap (y : Nat) : Bool := y % 4 == 0 && (y % 100 != 0 || y % 400 == 0)

/-- Number of days in month `m` (1–12) of year `y`. -/
def monthLen (y m : Nat) : Nat :=
  if m = 2 then (if isLeap y then 29 else 28)
  else if m = 4 ∨ m = 6 ∨ m = 9 ∨ m = 11 then 30
  else 31

/-- Day number (days since 1970-01-01) of the civil date `y-m-d`
(valid for dates from 1970 on; standard era-based Gregorian algorithm). -/
def daysFromCivil (y m d : Nat) : Nat :=
  let y' := if m ≤ 2 then y - 1 else y
  let era := y' / 400
  let yoe := y' % 400
  let mp := if m > 2 then m - 3 else m + 9
  let doy := (153 * mp + 2) / 5 + d - 1
  let doe := yoe * 365 + yoe / 4 - yoe / 100 + doy
  era * 146097 + doe - 719468

/-- Civil date `(y, m, d)` of a day number (inverse Gregorian algorithm). -/
def civilFromDays (z0 : Nat) : Nat × Nat × Nat :=
  let z := z0 + 719468
  let era := z / 146097
  let doe := z % 146097
  let yoe := (doe - doe / 1460 + doe / 36524 - doe / 146096) / 365
  let y := yoe + era * 400
  let doy := doe - (365 * yoe + yoe / 4 - yoe / 100)
  let mp := (5 * doy + 2) / 153
  let d := doy - (153 * mp + 2) / 5 + 1
  let m := if mp < 10 then mp + 3 else mp - 9
  (if m ≤ 2 then y + 1 else y, m, d)

/-- Linear index of the calendar month containing day `d`
(pandas `resample("M")` groups by this). -/
def monthIdx (d : Nat) : Nat :=
  let c := civilFromDays d
  c.1 * 12 + (c.2.1 - 1)

/-- The day number of the last day of the month with linear index `k`:
the month-end label pandas `resample("M")` puts on that bucket. -/
def monthEndOfIdx (k : Nat) : Nat :=
  daysFromCivil (k / 12) (k % 12 + 1) (monthLen (k / 12) (k % 12 + 1))

/-! ## Data model -/

/-- One row of the processed CSV.  Required numeric cells other than
`total_system_load` are modelled as always present (`ℚ`);
`total_system_load` and `backlog_streak` may be NaN (`Option ℚ`) —
those are the two columns the code guards with `dropna`/`pd.notna`.
The optional boolean columns carry their cell value here; whether the
column exists at all is recorded separately in `Cols`. -/
structure MetricRow where
  date : Nat
  total_system_load : Option ℚ
  cbp_custody : ℚ
  hhs_care : ℚ
  net_hhs_intake : ℚ
  is_reported : Bool
  backlog_streak : Option ℚ
  strain_flag : Bool
  flag_transfer_gt_cbp : Bool
  flag_discharge_gt_hhs : Bool
  flag_negative : Bool
deriving DecidableEq, Repr

/-- Which optional columns exist in the loaded dataframe
(`"xyz" in df.columns` checks in the code). -/
structure Cols where
  strain_flag : Bool
  backlog_streak : Bool
  flag_transfer_gt_cbp : Bool
  flag_discharge_gt_hhs : Bool
  flag_negative : Bool
deriving DecidableEq, Repr

/-- Ascending-by-date comparison used by `sort_values("date")`. -/
def dateLe (a b : MetricRow) : Prop := a.date ≤ b.date

/-- Descending-by-date comparison used by
`sort_values("date", ascending=False)`. -/
def dateGe (a b : MetricRow) : Prop := b.date ≤ a.date

instance : DecidableRel dateLe := fun a b => inferInstanceAs (Decidable (a.date ≤ b.date))

instance : DecidableRel dateGe := fun a b => inferInstanceAs (Decidable (b.date ≤ a.date))

instance : IsTotal MetricRow dateLe := ⟨fun a b => Nat.le_total a.date b.date⟩

instance : IsTrans MetricRow dateLe := ⟨fun _ _ _ h h' => Nat.le_trans h h'⟩

instance : IsRefl MetricRow dateLe := ⟨fun _ => Nat.le_refl _⟩

instance : IsTotal MetricRow dateGe := ⟨fun a b => Nat.le_total b.date a.date⟩

instance : IsTrans MetricRow dateGe := ⟨fun _ _ _ h h' => Nat.le_trans h' h⟩

instance : IsRefl MetricRow dateGe := ⟨fun _ => Nat.le_refl _⟩

/-! ## Load stage (app.py lines 50–96)

`pd.read_csv(path, parse_dates=["date"])` performs no schema check of
its own: it raises (a `ValueError` from `parse_dates`) exactly when the
`date` column is absent.  After a successful read the preview
(`st.dataframe(df.head(20))`, line 53) is rendered unconditionally.
The first later access to `is_reported` is line 96
(`df_f[df_f["is_reported"] == True]`), which raises a `KeyError` when
that column is absent.  `loadOutcome` records, from the header
alone, whether the preview got rendered and how this prefix of the
script ends. -/

/-- How the load/filter prefix of the script ends. -/
inductive Halt where
  /-- pandas `read_csv(..., parse_dates=["date"])` raised: no `date` column. -/
  | parseDatesMissingDate : Halt
  /-- line 96 raised `KeyError: is_reported`. -/
  | keyErrorIsReported : Halt
  /-- control reaches the rest of the pipeline. -/
  | proceeds : Halt
deriving DecidableEq, Repr

/-- The six columns §4.1 of the spec calls required. -/
def requiredCols : List String :=
  ["date", "total_system_load", "cbp_custody", "hhs_care", "net_hhs_intake", "is_reported"]

/-- Control flow of app.py lines 50–96 as a function of the CSV header:
returns (preview rendered?, how the prefix ends). -/
def loadOutcome (cols : List String) : Bool × Halt :=
  if "date" ∈ cols then
    if "is_reported" ∈ cols then (true, Halt.proceeds)
    else (true, Halt.keyErrorIsReported)
  else (false, Halt.parseDatesMissingDate)

/-! ## Range filter (app.py line 93) and reported split (line 96) -/

/-- Line 93: `df[(df["date"] >= start_date) & (df["date"] <= end_date)]`. -/
def filterRange (rows : List MetricRow) (start_date end_date : Nat) : List MetricRow :=
  rows.filter (fun r => decide (start_date ≤ r.date) && decide (r.date ≤ end_date))

/-- Line 96: `df_f[df_f["is_reported"] == True]`. -/
def reportedOf (rows : List MetricRow) : List MetricRow :=
  rows.filter (fun r => r.is_reported)

/-! ## Resampler (app.py lines 99–113)

`df_plot.set_index("date").resample("W"/"M").agg({...}).reset_index()`.
pandas generates every bucket from the bucket of the smallest index
value to the bucket of the largest, at the fixed frequency, whether or
not any row falls into it; `mean` of an empty (or all-NaN) bucket is
NaN, `sum` of an empty bucket is 0. -/

/-- pandas `mean` over a column slice, NaN cells already removed:
NaN (`none`) when nothing remains. -/
def meanOpt (l : List ℚ) : Option ℚ :=
  if l.isEmpty then none else some (l.sum / l.length)

/-- One output row of `resample(...).agg(...)`: the bucket label and the
four aggregated columns. -/
structure Bucket where
  date : Nat
  total_system_load : Option ℚ
  cbp_custody : Option ℚ
  hhs_care : Option ℚ
  net_hhs_intake : ℚ
deriving DecidableEq, Repr

/-- Aggregate the rows falling in one bucket, per the `agg` dict:
mean for the three stock columns (`total_system_load` skipping NaN
cells), sum for `net_hhs_intake`. -/
def aggBucket (key : Nat) (s : List MetricRow) : Bucket :=
  { date := key
    total_system_load := meanOpt (s.filterMap (fun r => r.total_system_load))
    cbp_custody := meanOpt (s.map (fun r => r.cbp_custody))
    hhs_care := meanOpt (s.map (fun r => r.hhs_care))
    net_hhs_intake := (s.map (fun r => r.net_hhs_intake)).sum }

/-- Smallest date in `r0 :: rs` (the index minimum used by the resampler). -/
def minDate (r0 : MetricRow) (rs : List MetricRow) : Nat :=
  rs.foldl (fun a r => min a r.date) r0.date

/-- Largest date in `r0 :: rs` (the index maximum used by the resampler). -/
def maxDate (r0 : MetricRow) (rs : List MetricRow) : Nat :=
  rs.foldl (fun a r => max a r.date) r0.date

/-- pandas `resample("W").agg({...})`: one bucket per Sunday-labelled week from
the week of the earliest row to the week of the latest, each
aggregating the rows whose week-end equals its label. -/
def resampleWeekly (rows : List MetricRow) : List Bucket :=
  match rows with
  | [] => []
  | r0 :: rs =>
    let lo := weekEnd (minDate r0 rs)
    let hi := weekEnd (maxDate r0 rs)
    (List.range ((hi - lo) / 7 + 1)).map (fun j =>
      aggBucket (lo + 7 * j)
        (rows.filter (fun r => weekEnd r.date == lo + 7 * j)))

/-- pandas `resample("M").agg({...})`: one bucket per calendar month from the
month of the earliest row to the month of the latest, labelled by the
last day of the month, each aggregating the rows of that month. -/
def resampleMonthly (rows : List MetricRow) : List Bucket :=
  match rows with
  | [] => []
  | r0 :: rs =>
    let lo := monthIdx (minDate r0 rs)
    let hi := monthIdx (maxDate r0 rs)
    (List.range (hi - lo + 1)).map (fun j =>
      aggBucket (monthEndOfIdx (lo + j))
        (rows.filter (fun r => monthIdx r.date == lo + j)))

/-! ## Strain detection (app.py lines 116–123) -/

/-- pandas `Series.quantile(0.85)` with the default linear
interpolation, over the non-NaN values `l`: sort ascending, let
`h = 0.85 * (n - 1)`, `i = ⌊h⌋`, `g = h - i`; the result is
`x_i + g * (x_(i+1) - x_i)`.  NaN (`none`) on an empty series. -/
def quantile85 (l : List ℚ) : Option ℚ :=
  if l.isEmpty then none
  else
    let s := l.insertionSort (· ≤ ·)
    let m : ℕ := l.length - 1
    let h : ℚ := (17 : ℚ) / 20 * (m : ℚ)
    let i : ℕ := (⌊h⌋).toNat
    let g : ℚ := h - (i : ℚ)
    let xi := s.getD i 0
    let xi1 := s.getD (i + 1) xi
    some (xi + g * (xi1 - xi))

/-- Line 119: `df_reported["total_system_load"].quantile(0.85)` (pandas skips NaN
cells before taking the quantile). -/
def strainThreshold (rows : List MetricRow) : Option ℚ :=
  quantile85 (rows.filterMap (fun r => r.total_system_load))

/-- Strain flag of one row against threshold `t`:
`(load > t) & (net_hhs_intake > 0)`.  A NaN load or NaN threshold
compares as `False` in pandas, hence `false` here. -/
def strainOf (t : Option ℚ) (r : MetricRow) : Bool :=
  match t, r.total_system_load with
  | some th, some v => decide (th < v) && decide (0 < r.net_hhs_intake)
  | _, _ => false

/-- Lines 119–123: compute the 85th-percentile threshold on the
filtered reported set and attach a strain flag to each of its rows. -/
def computeStrain (rows : List MetricRow) : List (MetricRow × Bool) :=
  rows.map (fun r => (r, strainOf (strainThreshold rows) r))

/-- Lines 118–123 with the column-presence guard: a pre-existing
`strain_flag` column is used as-is, otherwise flags are computed. -/
def strainStage (cols : Cols) (rows : List MetricRow) : List (MetricRow × Bool) :=
  if cols.strain_flag then rows.map (fun r => (r, r.strain_flag))
  else computeStrain rows

/-- Number of rows `computeStrain` flags. -/
def flaggedCount (rows : List MetricRow) : ℕ :=
  (computeStrain rows).countP (fun p => p.2)

/-! ## Latest-day KPI cards (app.py lines 127–146) -/

/-- Line 129: `df_reported.dropna(subset=["total_system_load"]).sort_values("date").tail(1)`
— `none` models the empty tail. -/
def latestRow (rows : List MetricRow) : Option MetricRow :=
  ((rows.filter (fun r => r.total_system_load.isSome)).insertionSort dateLe).getLast?

/-- Python `int()` on a float: truncation toward zero. -/
def pyInt (q : ℚ) : ℤ := if q < 0 then ⌈q⌉ else ⌊q⌋

/-- Display of the fifth KPI card as lines 142 and 144 would render
it: a number, or the em-dash "unavailable" marker.  (The numeric
branch of line 142 is in fact unreachable — see `BacklogOutcome`.) -/
inductive BacklogDisplay where
  | value : ℤ → BacklogDisplay
  | unavailable : BacklogDisplay
deriving DecidableEq, Repr

/-- What actually happens at the fifth KPI card: something is shown,
or line 141 raises and the script dies there. -/
inductive BacklogOutcome where
  | shown : BacklogDisplay → BacklogOutcome
  /-- `NameError: name np is not defined` raised at line 141. -/
  | nameErrorNp : BacklogOutcome
deriving DecidableEq, Repr

/-- Lines 141–144.  Line 141 reads
`if "backlog_streak" in df_reported.columns and pd.notna(row.get("backlog_streak", np.nan)):`
but app.py never imports numpy (only `pathlib`, `pandas`,
`streamlit`).  When the column is present, Python evaluates the
arguments of `row.get` — including `np.nan` — and raises
`NameError: name np is not defined`, killing the script before line
142 can show any value.  Only when the column is absent does the `and`
short-circuit, and line 144 renders the em-dash marker. -/
def backlogCard (cols : Cols) (_r : MetricRow) : BacklogOutcome :=
  if cols.backlog_streak then BacklogOutcome.nameErrorNp
  else BacklogOutcome.shown BacklogDisplay.unavailable

/-- The five KPI cards of lines 136–144. -/
structure KpiSnapshot where
  total_system_load : ℤ
  cbp_custody : ℤ
  hhs_care : ℤ
  net_hhs_intake : ℤ
  backlog : BacklogOutcome
deriving DecidableEq, Repr

/-- Outcome of the KPI section: cards, or the informational
"No reported data in the selected date range." message (line 146). -/
inductive KpiResult where
  | cards : KpiSnapshot → KpiResult
  | infoNoReportedData : KpiResult
deriving DecidableEq, Repr

/-- Lines 129–146: render the cards of the latest reported row, or the
informational message when no row qualifies. -/
def kpiStage (cols : Cols) (rows : List MetricRow) : KpiResult :=
  match latestRow rows with
  | some r =>
    KpiResult.cards
      { total_system_load := pyInt (r.total_system_load.getD 0)
        cbp_custody := pyInt r.cbp_custody
        hhs_care := pyInt r.hhs_care
        net_hhs_intake := pyInt r.net_hhs_intake
        backlog := backlogCard cols r }
  | none => KpiResult.infoNoReportedData

/-! ## Strain-days table (app.py lines 174–179) and
     quality-flags table (lines 182–187) -/

/-- Lines 174–176: reported rows whose strain flag is set, sorted
descending by date. -/
def strainDays (cols : Cols) (rows : List MetricRow) : List MetricRow :=
  (((strainStage cols rows).filter (fun p => p.2)).map (fun p => p.1)).insertionSort dateGe

/-- Line 179: `st.dataframe(strain_days.head(200))` — what the renderer
is actually handed. -/
def strainDaysTable (cols : Cols) (rows : List MetricRow) : List MetricRow :=
  (strainDays cols rows).take 200

/-- Row mask of line 186: `df_reported[flag_cols].any(axis=1)` where
`flag_cols` is the subset of the three recognized flag columns present. -/
def anyRecognizedFlag (cols : Cols) (r : MetricRow) : Bool :=
  (cols.flag_transfer_gt_cbp && r.flag_transfer_gt_cbp) ||
  (cols.flag_discharge_gt_hhs && r.flag_discharge_gt_hhs) ||
  (cols.flag_negative && r.flag_negative)

/-- Lines 182–187: `none` when no recognized flag column is present
(the whole section is skipped); otherwise the flagged rows sorted
descending by date. -/
def collectQualityFlags (cols : Cols) (rows : List MetricRow) : Option (List MetricRow) :=
  if cols.flag_transfer_gt_cbp || cols.flag_discharge_gt_hhs || cols.flag_negative then
    some ((rows.filter (fun r => anyRecognizedFlag cols r)).insertionSort dateGe)
  else none

/-- Line 187: `st.dataframe(flagged.head(200))`. -/
def qualityFlagsTable (cols : Cols) (rows : List MetricRow) : Option (List MetricRow) :=
  (collectQualityFlags cols rows).map (fun l => l.take 200)

/-! ## Concrete datasets used as test vectors

Day numbers: 19723 is 2024-01-01 (a Monday, `19723 % 7 = 4`),
so 19727 is 2024-01-05 and 19737 is 2024-01-15. -/

/-- A reported row with the given date, load and net intake; the other
cells are neutral. -/
def mkRow (d : Nat) (load : ℚ) (net : ℚ) : MetricRow :=
  { date := d
    total_system_load := some load
    cbp_custody := 0
    hhs_care := 0
    net_hhs_intake := net
    is_reported := true
    backlog_streak := none
    strain_flag := false
    flag_transfer_gt_cbp := false
    flag_discharge_gt_hhs := false
    flag_negative := false }

/-- The dataset has none of the optional columns. -/
def noCols : Cols :=
  { strain_flag := false
    backlog_streak := false
    flag_transfer_gt_cbp := false
    flag_discharge_gt_hhs := false
    flag_negative := false }

/-- Spec §8 strain vector: loads [10,20,30,40,90,85,88], intakes all 1,
daily from 2024-01-01. -/
def strainVec : List MetricRow :=
  [mkRow 19723 10 1, mkRow 19724 20 1, mkRow 19725 30 1, mkRow 19726 40 1,
   mkRow 19727 90 1, mkRow 19728 85 1, mkRow 19729 88 1]

/-- Spec §8 KPI vector: 2024-01-01..2024-01-05, loads [10,20,30,40,50]. -/
def kpiVec : List MetricRow :=
  [mkRow 19723 10 1, mkRow 19724 20 2, mkRow 19725 30 3, mkRow 19726 40 4,
   mkRow 19727 50 5]

/-- Two reported Mondays two weeks apart (2024-01-01 and 2024-01-15):
the week of 2024-01-14 between them has no rows. -/
def gapVec : List MetricRow :=
  [mkRow 19723 10 1, mkRow 19737 20 2]

/-- Two reported rows, loads 0 and 100, both with positive intake. -/
def pairVec : List MetricRow :=
  [mkRow 19723 0 1, mkRow 19724 100 1]

/-- The header of a CSV that has every required column except
`is_reported`. -/
def headerNoIsReported : List String :=
  ["date", "total_system_load", "cbp_custody", "hhs_care", "net_hhs_intake"]

/-! ## Helper lemmas -/

theorem weekEnd_mod7 (d : Nat) : weekEnd d % 7 = 3 := by
  unfold weekEnd; omega

theorem weekEnd_eq_iff {k : Nat} (hk : k % 7 = 3) (d : Nat) :
    weekEnd d = k ↔ d ≤ k ∧ k ≤ d + 6 := by
  unfold weekEnd; omega

theorem mem_getLast? {α : Type} : ∀ {l : List α} {x : α}, l.getLast? = some x → x ∈ l := by
  intro l
  induction l with
  | nil => intro x h; simp at h
  | cons a t ih =>
    intro x h
    cases t with
    | nil => simp_all
    | cons b t' =>
      rw [List.getLast?_cons_cons] at h
      exact List.mem_cons_of_mem _ (ih h)

theorem date_le_of_pairwise_getLast? :
    ∀ {l : List MetricRow}, l.Pairwise dateLe → ∀ {x : MetricRow}, l.getLast? = some x →
      ∀ y ∈ l, y.date ≤ x.date := by
  intro l
  induction l with
  | nil => intro _ x h; simp at h
  | cons a t ih =>
    intro hp x h y hy
    cases t with
    | nil =>
      simp only [List.getLast?_singleton, Option.some.injEq] at h
      simp only [List.mem_singleton] at hy
      subst h; subst hy; exact Nat.le_refl _
    | cons b t' =>
      rw [List.getLast?_cons_cons] at h
      rcases List.mem_cons.mp hy with rfl | hy'
      · exact (List.pairwise_cons.mp hp).1 x (mem_getLast? h)
      · exact ih (List.pairwise_cons.mp hp).2 h y hy'

theorem pairwise_take_drop {α : Type} {r : α → α → Prop} {l : List α}
    (hp : l.Pairwise r) (n : ℕ) : ∀ x ∈ l.take n, ∀ y ∈ l.drop n, r x y := by
  have h := hp
  rw [← List.take_append_drop n l] at h
  exact (List.pairwise_append.mp h).2.2

theorem length_filterMap_of_isSome {α β : Type} (f : α → Option β) :
    ∀ (l : List α), (∀ a ∈ l, (f a).isSome) → (l.filterMap f).length = l.length := by
  intro l
  induction l with
  | nil => simp
  | cons a t ih =>
    intro h
    obtain ⟨v, hv⟩ := Option.isSome_iff_exists.mp (h a (List.mem_cons_self a t))
    rw [List.filterMap_cons, hv]
    simp only [List.length_cons]
    rw [ih (fun a ha => h a (List.mem_cons_of_mem _ ha))]

theorem strainOf_eq_true_iff (t : Option ℚ) (r : MetricRow) :
    strainOf t r = true ↔
      ∃ v th : ℚ, r.total_system_load = some v ∧ t = some th ∧
        th < v ∧ 0 < r.net_hhs_intake := by
  cases t with
  | none => simp [strainOf]
  | some th =>
    cases hl : r.total_system_load with
    | none => simp [strainOf, hl]
    | some v =>
      simp only [strainOf, Bool.and_eq_true, decide_eq_true_eq, hl,
        Option.some.injEq]
      constructor
      · intro ⟨h1, h2⟩
        exact ⟨v, th, rfl, rfl, h1, h2⟩
      · intro ⟨v', th', hv', hth', h1, h2⟩
        subst hv'; subst hth'
        exact ⟨h1, h2⟩

/-- Floor of `0.85 · m` as a natural-number division. -/
theorem floor_q85 (m : ℕ) : (⌊(17 : ℚ) / 20 * (m : ℚ)⌋).toNat = 17 * m / 20 := by
  have h20 : (0 : ℚ) < 20 := by norm_num
  have hq : (17 : ℚ) / 20 * (m : ℚ) = ((17 * m : ℕ) : ℚ) / 20 := by
    push_cast; ring
  have hnat1 : 17 * m / 20 * 20 ≤ 17 * m := Nat.div_mul_le_self _ _
  have hnat2 : 17 * m < (17 * m / 20 + 1) * 20 := by omega
  have hfl : ⌊((17 * m : ℕ) : ℚ) / 20⌋ = ((17 * m / 20 : ℕ) : ℤ) := by
    rw [Int.floor_eq_iff]
    constructor
    · rw [le_div_iff₀ h20]
      exact_mod_cast hnat1
    · rw [div_lt_iff₀ h20]
      push_cast
      exact_mod_cast hnat2
  rw [hq, hfl, Int.toNat_natCast]

/-- The interpolated 85th percentile is at least the order statistic at
index `⌊0.85 · (n − 1)⌋` of the sorted values. -/
theorem quantile85_ge (a : ℚ) (l : List ℚ) (t : ℚ)
    (ht : quantile85 (a :: l) = some t) :
    ((a :: l).insertionSort (· ≤ ·)).getD (17 * l.length / 20) 0 ≤ t := by
  have hlen : ((a :: l).insertionSort (· ≤ ·)).length = l.length + 1 := by
    rw [(List.perm_insertionSort _ _).length_eq]
    simp
  have hi : 17 * l.length / 20 < ((a :: l).insertionSort (· ≤ ·)).length := by
    rw [hlen]; omega
  have hval : t = ((a :: l).insertionSort (· ≤ ·)).getD (17 * l.length / 20) 0 +
      ((17 : ℚ) / 20 * (l.length : ℚ) - ((17 * l.length / 20 : ℕ) : ℚ)) *
        (((a :: l).insertionSort (· ≤ ·)).getD (17 * l.length / 20 + 1)
            (((a :: l).insertionSort (· ≤ ·)).getD (17 * l.length / 20) 0) -
          ((a :: l).insertionSort (· ≤ ·)).getD (17 * l.length / 20) 0) := by
    have h := ht
    simp only [quantile85, List.isEmpty_cons, Bool.false_eq_true, if_false,
      List.length_cons, Nat.add_sub_cancel, floor_q85, Option.some.injEq] at h
    exact h.symm
  have hg : (0 : ℚ) ≤ (17 : ℚ) / 20 * (l.length : ℚ) - ((17 * l.length / 20 : ℕ) : ℚ) := by
    have h1 : ((17 * l.length / 20 : ℕ) : ℚ) * 20 ≤ ((17 * l.length : ℕ) : ℚ) := by
      exact_mod_cast Nat.div_mul_le_self (17 * l.length) 20
    have h2 : ((17 * l.length : ℕ) : ℚ) = 17 * (l.length : ℚ) := by push_cast; ring
    nlinarith
  have hx : ((a :: l).insertionSort (· ≤ ·)).getD (17 * l.length / 20) 0 ≤
      ((a :: l).insertionSort (· ≤ ·)).getD (17 * l.length / 20 + 1)
        (((a :: l).insertionSort (· ≤ ·)).getD (17 * l.length / 20) 0) := by
    by_cases hc : 17 * l.length / 20 + 1 < ((a :: l).insertionSort (· ≤ ·)).length
    · rw [List.getD_eq_getElem _ _ hc, List.getD_eq_getElem _ _ hi]
      have hs := List.sorted_insertionSort (α := ℚ) (· ≤ ·) (a :: l)
      have := hs.rel_get_of_lt
        (a := ⟨17 * l.length / 20, hi⟩) (b := ⟨17 * l.length / 20 + 1, hc⟩)
        (by simp [Fin.lt_def])
      simpa [List.get_eq_getElem] using this
    · have hdef : ((a :: l).insertionSort (· ≤ ·)).getD (17 * l.length / 20 + 1)
          (((a :: l).insertionSort (· ≤ ·)).getD (17 * l.length / 20) 0) =
          ((a :: l).insertionSort (· ≤ ·)).getD (17 * l.length / 20) 0 :=
        List.getD_eq_default _ _ (by omega)
      rw [hdef]
  have hmul : (0 : ℚ) ≤
      ((17 : ℚ) / 20 * (l.length : ℚ) - ((17 * l.length / 20 : ℕ) : ℚ)) *
        (((a :: l).insertionSort (· ≤ ·)).getD (17 * l.length / 20 + 1)
            (((a :: l).insertionSort (· ≤ ·)).getD (17 * l.length / 20) 0) -
          ((a :: l).insertionSort (· ≤ ·)).getD (17 * l.length / 20) 0) :=
    mul_nonneg hg (sub_nonneg.mpr hx)
  linarith [hval, hmul]

/-- In a sorted list, at most `length − 1 − i` values strictly exceed
any bound that is at least the `i`-th entry. -/
theorem countP_gt_le (s : List ℚ) (hs : s.Sorted (· ≤ ·)) (t : ℚ) (i : ℕ)
    (hi : i < s.length) (hit : s.getD i 0 ≤ t) :
    s.countP (fun x => decide (t < x)) ≤ s.length - 1 - i := by
  have hsplit : s.countP (fun x => decide (t < x)) =
      (s.take (i + 1)).countP (fun x => decide (t < x)) +
      (s.drop (i + 1)).countP (fun x => decide (t < x)) := by
    conv_lhs => rw [← List.take_append_drop (i + 1) s]
    rw [List.countP_append]
  have htake : (s.take (i + 1)).countP (fun x => decide (t < x)) = 0 := by
    rw [List.countP_eq_zero]
    intro x hx
    obtain ⟨j, hj, hjx⟩ := List.mem_iff_getElem.mp hx
    have hjlen : j < s.length := by
      have := hj; rw [List.length_take] at this; omega
    have hji : j ≤ i := by
      have := hj; rw [List.length_take] at this; omega
    have hxle : x ≤ s.getD i 0 := by
      rw [← hjx, List.getElem_take, List.getD_eq_getElem _ _ hi]
      have := hs.rel_get_of_le (a := ⟨j, hjlen⟩) (b := ⟨i, hi⟩)
        (Fin.mk_le_mk.mpr hji)
      simpa [List.get_eq_getElem] using this
    simp only [decide_eq_true_eq]
    exact not_lt.mpr (hxle.trans hit)
  have hdrop : (s.drop (i + 1)).countP (fun x => decide (t < x)) ≤
      s.length - (i + 1) := by
    calc (s.drop (i + 1)).countP (fun x => decide (t < x))
        ≤ (s.drop (i + 1)).length := List.countP_le_length _
      _ = s.length - (i + 1) := List.length_drop _ _
  omega

/-- A row the strain stage flags contributes a value above `t` to the
non-null load column. -/
theorem countP_strain_le_loads (t : ℚ) :
    ∀ rows : List MetricRow,
      rows.countP (fun r => strainOf (some t) r) ≤
        (rows.filterMap (fun r => r.total_system_load)).countP
          (fun x => decide (t < x)) := by
  intro rows
  induction rows with
  | nil => simp
  | cons r rs ih =>
    rw [List.countP_cons, List.filterMap_cons]
    cases hl : r.total_system_load with
    | none =>
      have hz : strainOf (some t) r = false := by simp [strainOf, hl]
      simpa [hz] using ih
    | some v =>
      rw [List.countP_cons]
      have himp : strainOf (some t) r = true → decide (t < v) = true := by
        simp only [strainOf, hl, Bool.and_eq_true, decide_eq_true_eq]
        intro ⟨h1, _⟩
        exact h1
      cases hp : strainOf (some t) r <;> cases hv : decide (t < v) <;>
        simp_all
      omega

/-- Rewriting `flaggedCount` as a `countP` over the rows. -/
theorem flaggedCount_eq (rows : List MetricRow) :
    flaggedCount rows =
      rows.countP (fun r => strainOf (strainThreshold rows) r) := by
  rw [flaggedCount, computeStrain, List.countP_map]
  rfl

/-! ## C1 -/

/-- C1: the claim says that for every raw dataset missing at least one
required column — in particular a dataset missing only `is_reported` —
the load fails with a `SchemaError` and the pipeline halts with no
partial rendering.  False on the code: with `is_reported` (but not
`date`) absent, `pd.read_csv(..., parse_dates=["date"])` succeeds, the
preview is rendered (partial rendering does happen), and the script
only dies later with a `KeyError`.  Here: the header misses a required
column, yet the preview gets rendered. -/
theorem c1_no_schema_check :
    ("is_reported" ∈ requiredCols ∧ "is_reported" ∉ headerNoIsReported) ∧
    ¬ ((loadOutcome headerNoIsReported).1 = false) := by
  decide

/-- C1 (amended): `load_data` performs no schema validation.  Loading
fails (before anything is rendered) exactly when the `date` column is
missing — the pandas `parse_dates` error, not a `SchemaError` listing the
missing columns.  Whenever `date` is present the preview is rendered,
and a dataset additionally missing `is_reported` then halts the
pipeline with `KeyError: is_reported` only after that partial
rendering. -/
theorem c1_load_behaviour (cols : List String) :
    ((loadOutcome cols).1 = true ↔ "date" ∈ cols) ∧
    ((loadOutcome cols).2 = Halt.parseDatesMissingDate ↔ "date" ∉ cols) ∧
    ("date" ∈ cols → "is_reported" ∉ cols →
      (loadOutcome cols).2 = Halt.keyErrorIsReported) := by
  unfold loadOutcome
  by_cases hd : "date" ∈ cols <;> by_cases hr : "is_reported" ∈ cols <;>
    simp [hd, hr]

/-- C1 amended-claim witness on the concrete header missing only
`is_reported`. -/
theorem c1_load_behaviour_witness :
    (loadOutcome headerNoIsReported).2 = Halt.keyErrorIsReported :=
  (c1_load_behaviour headerNoIsReported).2.2 (by decide) (by decide)

/-! ## C4 -/

/-- C4: `filter_range` keeps exactly the rows with
`start ≤ date ≤ end`, preserving the original order (the result is a
sublist of the input), and reversed bounds give the empty result, not
an error. -/
theorem c4_filter_range (rows : List MetricRow) (s e : Nat) :
    (filterRange rows s e).Sublist rows ∧
    (∀ r : MetricRow, r ∈ filterRange rows s e ↔
        r ∈ rows ∧ s ≤ r.date ∧ r.date ≤ e) ∧
    (e < s → filterRange rows s e = []) := by
  refine ⟨List.filter_sublist rows, fun r => ?_, fun h => ?_⟩
  · simp [filterRange, List.mem_filter, and_assoc]
  · rw [filterRange, List.filter_eq_nil_iff]
    intro r _
    simp only [Bool.and_eq_true, decide_eq_true_eq, not_and]
    omega

/-- C4 witness: reversed bounds on a concrete dataset yield `[]`, and a
concrete in-range row is kept. -/
theorem c4_filter_range_witness :
    filterRange kpiVec 19727 19723 = [] ∧
    (mkRow 19724 20 2 ∈ filterRange kpiVec 19724 19725) :=
  ⟨(c4_filter_range kpiVec 19727 19723).2.2 (by decide),
   ((c4_filter_range kpiVec 19724 19725).2.1 (mkRow 19724 20 2)).mpr
     (by refine ⟨by decide, by decide, by decide⟩)⟩

/-! ## C3 -/

/-- C3: the latest-day snapshot comes from the last row, by ascending
date, among the rows with a non-null `total_system_load`: when such a
row exists it belongs to the input, its load is non-null, and its date
is maximal among qualifying rows; when none exists the KPI stage yields
the informational "No reported data in the selected date range."
outcome instead of a crash.  On the 2024-01-01..05 spec vector with
loads [10,20,30,40,50] it returns the 2024-01-05 row. -/
theorem c3_latest_kpi (rows : List MetricRow) (cols : Cols) :
    (latestRow rows = none ↔ ∀ r ∈ rows, r.total_system_load = none) ∧
    (∀ r : MetricRow, latestRow rows = some r →
        r ∈ rows ∧ r.total_system_load ≠ none ∧
        ∀ r' ∈ rows, r'.total_system_load ≠ none → r'.date ≤ r.date) ∧
    (latestRow rows = none → kpiStage cols rows = KpiResult.infoNoReportedData) ∧
    latestRow kpiVec = some (mkRow 19727 50 5) := by
  refine ⟨?_, ?_, ?_, by decide⟩
  · unfold latestRow
    rw [List.getLast?_eq_none_iff]
    constructor
    · intro h r hr
      cases hload : r.total_system_load with
      | none => rfl
      | some v =>
        exfalso
        have hmem : r ∈ (rows.filter
            (fun r => r.total_system_load.isSome)).insertionSort dateLe := by
          rw [List.mem_insertionSort]
          exact List.mem_filter.mpr ⟨hr, by rw [hload]; rfl⟩
        rw [h] at hmem
        simp at hmem
    · intro h
      have : rows.filter (fun r => r.total_system_load.isSome) = [] := by
        rw [List.filter_eq_nil_iff]
        intro r hr
        rw [h r hr]
        simp
      rw [this]
      rfl
  · intro r hlast
    have hmem : r ∈ (rows.filter
        (fun r => r.total_system_load.isSome)).insertionSort dateLe :=
      mem_getLast? hlast
    rw [List.mem_insertionSort] at hmem
    obtain ⟨hrows, hsome⟩ := List.mem_filter.mp hmem
    refine ⟨hrows, by simpa [Option.isSome_iff_ne_none] using hsome, ?_⟩
    intro r' hr' hload'
    have hmem' : r' ∈ (rows.filter
        (fun r => r.total_system_load.isSome)).insertionSort dateLe := by
      rw [List.mem_insertionSort]
      exact List.mem_filter.mpr ⟨hr', by simpa [Option.isSome_iff_ne_none] using hload'⟩
    exact date_le_of_pairwise_getLast?
      (List.sorted_insertionSort dateLe _) hlast r' hmem'
  · intro h
    unfold kpiStage
    rw [h]

/-- C3 witness: applied to the empty row set, the KPI stage yields the
informational no-data outcome. -/
theorem c3_latest_kpi_witness :
    kpiStage noCols [] = KpiResult.infoNoReportedData :=
  (c3_latest_kpi [] noCols).2.2.1 (by decide)

/-! ## C8 -/

/-- C8: the claim says the snapshot exposes a present
`backlog_streak` value and shows an explicit "unavailable" marker (not
a numeric zero) when it is absent; that is plainly what lines 140-144
attempt.  The code is broken instead: line 141 evaluates `np.nan`
although app.py never imports numpy, so for every dataset whose
`backlog_streak` column is present — whatever the cell holds — the
script raises `NameError: name np is not defined` and exposes nothing;
in particular it does so at the concrete failing input whose latest
row carries streak 7.  Only the column-absent branch behaves as
claimed, rendering the em-dash marker, which is indeed distinct from
every numeric display; the KPI cards take their backlog field from the
latest row through this (crashing) path. -/
theorem c8_backlog_name_error :
    (∀ (cols : Cols) (r : MetricRow),
        (cols.backlog_streak = true ∧
            backlogCard cols r = BacklogOutcome.nameErrorNp) ∨
        (cols.backlog_streak = false ∧
            backlogCard cols r =
              BacklogOutcome.shown BacklogDisplay.unavailable)) ∧
    (∀ z : ℤ, BacklogDisplay.unavailable ≠ BacklogDisplay.value z) ∧
    backlogCard { noCols with backlog_streak := true }
        { mkRow 19723 10 1 with backlog_streak := some 7 }
      = BacklogOutcome.nameErrorNp ∧
    (∀ (cols : Cols) (rows : List MetricRow) (s : KpiSnapshot),
        kpiStage cols rows = KpiResult.cards s →
        ∃ r0, latestRow rows = some r0 ∧ s.backlog = backlogCard cols r0) := by
  refine ⟨?_, ?_, rfl, ?_⟩
  · intro cols r
    cases hc : cols.backlog_streak
    · right
      refine ⟨rfl, ?_⟩
      unfold backlogCard
      rw [hc]
      rfl
    · left
      refine ⟨rfl, ?_⟩
      unfold backlogCard
      rw [hc]
      rfl
  · exact fun z h => BacklogDisplay.noConfusion h
  · intro cols rows s h
    unfold kpiStage at h
    cases hl : latestRow rows with
    | none => rw [hl] at h; cases h
    | some r0 =>
      rw [hl] at h
      cases h
      exact ⟨r0, rfl, rfl⟩

/-! ## C9 -/

/-- C9: the quality-flag collector recognizes only the flag columns
actually present: it returns `none` (the section is omitted, no error)
when none of the three is present, and otherwise the rows on which at
least one present flag column is true, sorted descending by date. -/
theorem c9_quality_flags (cols : Cols) (rows : List MetricRow) :
    (cols.flag_transfer_gt_cbp = false ∧ cols.flag_discharge_gt_hhs = false ∧
        cols.flag_negative = false → collectQualityFlags cols rows = none) ∧
    (∀ l : List MetricRow, collectQualityFlags cols rows = some l →
        (∀ r : MetricRow, r ∈ l ↔ r ∈ rows ∧
            ((cols.flag_transfer_gt_cbp = true ∧ r.flag_transfer_gt_cbp = true) ∨
             (cols.flag_discharge_gt_hhs = true ∧ r.flag_discharge_gt_hhs = true) ∨
             (cols.flag_negative = true ∧ r.flag_negative = true))) ∧
        l.Sorted dateGe) := by
  constructor
  · intro ⟨h1, h2, h3⟩
    unfold collectQualityFlags
    rw [h1, h2, h3]
    rfl
  · intro l hl
    unfold collectQualityFlags at hl
    by_cases hc : (cols.flag_transfer_gt_cbp || cols.flag_discharge_gt_hhs ||
        cols.flag_negative) = true
    · rw [if_pos hc] at hl
      cases hl
      constructor
      · intro r
        rw [List.mem_insertionSort, List.mem_filter]
        unfold anyRecognizedFlag
        simp [Bool.and_eq_true, Bool.or_eq_true, or_assoc]
      · exact List.sorted_insertionSort dateGe _
    · rw [if_neg hc] at hl
      cases hl

/-- C9 witness: with no flag columns present, the report over a
concrete dataset is `none` — the section is omitted, no error. -/
theorem c9_quality_flags_witness :
    collectQualityFlags noCols strainVec = none :=
  (c9_quality_flags noCols strainVec).1 ⟨rfl, rfl, rfl⟩

/-! ## C10 -/

/-- C10: both tables handed to the renderer are capped at 200 rows by
`.head(200)`: each is the 200-prefix of the corresponding
date-descending-sorted row list, so it holds at most 200 rows and
every dropped row has a date at most that of every kept row (the kept
rows are the most recent). -/
theorem c10_table_cap (cols : Cols) (rows : List MetricRow) :
    ((strainDaysTable cols rows).length ≤ 200 ∧
     strainDaysTable cols rows = (strainDays cols rows).take 200 ∧
     (∀ x ∈ strainDaysTable cols rows,
        ∀ y ∈ (strainDays cols rows).drop 200, y.date ≤ x.date)) ∧
    (∀ full : List MetricRow, collectQualityFlags cols rows = some full →
        qualityFlagsTable cols rows = some (full.take 200) ∧
        (full.take 200).length ≤ 200 ∧
        (∀ x ∈ full.take 200, ∀ y ∈ full.drop 200, y.date ≤ x.date)) := by
  constructor
  · refine ⟨?_, rfl, ?_⟩
    · rw [strainDaysTable, List.length_take]
      exact min_le_left _ _
    · intro x hx y hy
      have hsorted : (strainDays cols rows).Pairwise dateGe :=
        List.sorted_insertionSort dateGe _
      exact pairwise_take_drop hsorted 200 x hx y hy
  · intro full hfull
    have hsorted : full.Pairwise dateGe := by
      unfold collectQualityFlags at hfull
      by_cases hc : (cols.flag_transfer_gt_cbp || cols.flag_discharge_gt_hhs ||
          cols.flag_negative) = true
      · rw [if_pos hc] at hfull
        cases hfull
        exact List.sorted_insertionSort dateGe _
      · rw [if_neg hc] at hfull
        cases hfull
    refine ⟨?_, ?_, ?_⟩
    · rw [qualityFlagsTable, hfull]
      rfl
    · rw [List.length_take]
      exact min_le_left _ _
    · intro x hx y hy
      exact pairwise_take_drop hsorted 200 x hx y hy

/-- C10 witness: the table of the concrete strain vector equals the
200-prefix of its sorted strain-day list and is within the cap. -/
theorem c10_table_cap_witness :
    (strainDaysTable noCols strainVec).length ≤ 200 :=
  ((c10_table_cap noCols strainVec).1).1

/-- Evaluation: the linear-interpolation 85th percentile of the
seven loads is 88.2 = 441/5 (sorted [10,20,30,40,85,88,90],
h = 0.85·6 = 5.1, so x₅ + 0.1·(x₆ − x₅) = 88 + 0.1·2). -/
theorem quantile85_strainVals :
    quantile85 [10, 20, 30, 40, 90, 85, 88] = some (441 / 5) := by
  have hs : ([10, 20, 30, 40, 90, 85, 88] : List ℚ).insertionSort (· ≤ ·)
      = [10, 20, 30, 40, 85, 88, 90] := by decide
  have hfn : (⌊((17 : ℚ) / 20 * ((6 : ℕ) : ℚ))⌋).toNat = 5 := by
    have hf : ⌊((17 : ℚ) / 20 * ((6 : ℕ) : ℚ))⌋ = 5 := by norm_num
    rw [hf]; rfl
  simp only [quantile85, List.isEmpty_cons, Bool.false_eq_true, if_false, hs,
    List.length_cons, List.length_nil, hfn]
  norm_num [List.getD_cons_succ, List.getD_cons_zero]

/-- Evaluation: the threshold computed on `strainVec` is 441/5. -/
theorem strainThreshold_strainVec :
    strainThreshold strainVec = some (441 / 5) := by
  have h : strainVec.filterMap (fun r => r.total_system_load)
      = [10, 20, 30, 40, 90, 85, 88] := rfl
  rw [strainThreshold, h, quantile85_strainVals]

/-- Evaluation: on `strainVec` exactly the load-90 row is flagged. -/
theorem computeStrain_strainVec :
    (computeStrain strainVec).map (fun p => p.2) =
      [false, false, false, false, true, false, false] := by
  have h1 : ¬((441 : ℚ) / 5 < 10) := by norm_num
  have h2 : ¬((441 : ℚ) / 5 < 20) := by norm_num
  have h3 : ¬((441 : ℚ) / 5 < 30) := by norm_num
  have h4 : ¬((441 : ℚ) / 5 < 40) := by norm_num
  have h5 : (441 : ℚ) / 5 < 90 := by norm_num
  have h6 : ¬((441 : ℚ) / 5 < 85) := by norm_num
  have h7 : ¬((441 : ℚ) / 5 < 88) := by norm_num
  simp only [computeStrain, strainThreshold_strainVec, List.map_map]
  simp only [strainVec, List.map_cons, List.map_nil, Function.comp]
  simp only [mkRow, strainOf]
  rw [decide_eq_false h1, decide_eq_false h2, decide_eq_false h3,
    decide_eq_false h4, decide_eq_true h5, decide_eq_false h6,
    decide_eq_false h7]
  decide

/-! ## C2 -/

/-- C2: with no pre-existing `strain_flag` column, the strain stage
flags a row exactly when its `total_system_load` is (non-null and)
strictly above the linear-interpolation 85th percentile of
`total_system_load` over the filtered reported set, and its
`net_hhs_intake` is strictly positive; the empty set produces no flags.
On the spec vector [10,20,30,40,90,85,88] (intakes all 1) the
threshold is 88.2 = 441/5 and exactly the load-90 row is flagged. -/
theorem c2_compute_strain (cols : Cols) (rows : List MetricRow)
    (hcol : cols.strain_flag = false) :
    (∀ (r : MetricRow) (flag : Bool), (r, flag) ∈ strainStage cols rows →
        (flag = true ↔
          ∃ v t : ℚ, r.total_system_load = some v ∧
            quantile85 (rows.filterMap (fun r' => r'.total_system_load)) = some t ∧
            t < v ∧ 0 < r.net_hhs_intake)) ∧
    strainStage cols [] = [] ∧
    quantile85 [10, 20, 30, 40, 90, 85, 88] = some (441 / 5) ∧
    (computeStrain strainVec).map (fun p => p.2) =
      [false, false, false, false, true, false, false] := by
  refine ⟨?_, ?_, quantile85_strainVals, computeStrain_strainVec⟩
  · intro r flag hmem
    rw [strainStage, hcol] at hmem
    simp only [Bool.false_eq_true, if_false] at hmem
    unfold computeStrain at hmem
    rw [List.mem_map] at hmem
    obtain ⟨r', _, heq⟩ := hmem
    rw [Prod.mk.injEq] at heq
    obtain ⟨rfl, rfl⟩ := heq
    rw [strainOf_eq_true_iff]
    exact Iff.rfl
  · rw [strainStage, hcol]
    simp only [Bool.false_eq_true, if_false]
    rfl

/-- C2 witness: the theorem applied to the concrete spec vector (with
no pre-existing `strain_flag` column) yields the interpolated
threshold 441/5. -/
theorem c2_compute_strain_witness :
    quantile85 [10, 20, 30, 40, 90, 85, 88] = some (441 / 5) :=
  (c2_compute_strain noCols strainVec rfl).2.2.1

/-! ## C5 -/

/-- C5: every weekly bucket is labelled by a Sunday (`date % 7 = 3`,
the week-ending boundary) and collects exactly the rows of the seven
days ending at its label; every monthly bucket is labelled by a
calendar month end and collects exactly the rows of that month; in
every bucket with at least one contributing row the three stock
columns are the arithmetic mean of the contributing rows
(`total_system_load` averaging the non-null cells) and
`net_hhs_intake` is their sum. -/
theorem c5_resample (rows : List MetricRow) :
    (∀ b ∈ resampleWeekly rows,
        b.date % 7 = 3 ∧
        rows.filter (fun r => weekEnd r.date == b.date) =
          rows.filter (fun r => decide (r.date ≤ b.date) &&
            decide (b.date ≤ r.date + 6)) ∧
        (∀ s : List MetricRow,
            s = rows.filter (fun r => weekEnd r.date == b.date) → s ≠ [] →
            b.total_system_load = meanOpt (s.filterMap (fun r => r.total_system_load)) ∧
            b.cbp_custody = some ((s.map (fun r => r.cbp_custody)).sum / (s.length : ℚ)) ∧
            b.hhs_care = some ((s.map (fun r => r.hhs_care)).sum / (s.length : ℚ)) ∧
            b.net_hhs_intake = (s.map (fun r => r.net_hhs_intake)).sum)) ∧
    (∀ b ∈ resampleMonthly rows,
        ∃ k : ℕ, b.date = monthEndOfIdx k ∧
          ∀ s : List MetricRow,
            s = rows.filter (fun r => monthIdx r.date == k) → s ≠ [] →
            b.total_system_load = meanOpt (s.filterMap (fun r => r.total_system_load)) ∧
            b.cbp_custody = some ((s.map (fun r => r.cbp_custody)).sum / (s.length : ℚ)) ∧
            b.hhs_care = some ((s.map (fun r => r.hhs_care)).sum / (s.length : ℚ)) ∧
            b.net_hhs_intake = (s.map (fun r => r.net_hhs_intake)).sum) := by
  constructor
  · intro b hb
    cases rows with
    | nil => simp [resampleWeekly] at hb
    | cons r0 rs =>
      simp only [resampleWeekly, List.mem_map, List.mem_range] at hb
      obtain ⟨j, hj, rfl⟩ := hb
      simp only [aggBucket]
      have hk : (weekEnd (minDate r0 rs) + 7 * j) % 7 = 3 := by
        have := weekEnd_mod7 (minDate r0 rs); omega
      refine ⟨hk, ?_, ?_⟩
      · apply List.filter_congr
        intro r _
        rw [Bool.eq_iff_iff]
        simp only [beq_iff_eq, Bool.and_eq_true, decide_eq_true_eq]
        exact weekEnd_eq_iff hk r.date
      · intro s hs hsne
        refine ⟨by rw [hs], ?_, ?_, by rw [hs]⟩
        · rw [hs, meanOpt, if_neg, List.length_map]
          simp only [List.isEmpty_iff, List.map_eq_nil_iff]
          rw [← hs]; exact hsne
        · rw [hs, meanOpt, if_neg, List.length_map]
          simp only [List.isEmpty_iff, List.map_eq_nil_iff]
          rw [← hs]; exact hsne
  · intro b hb
    cases rows with
    | nil => simp [resampleMonthly] at hb
    | cons r0 rs =>
      simp only [resampleMonthly, List.mem_map, List.mem_range] at hb
      obtain ⟨j, hj, rfl⟩ := hb
      simp only [aggBucket]
      refine ⟨monthIdx (minDate r0 rs) + j, rfl, ?_⟩
      intro s hs hsne
      refine ⟨by rw [hs], ?_, ?_, by rw [hs]⟩
      · rw [hs, meanOpt, if_neg, List.length_map]
        simp only [List.isEmpty_iff, List.map_eq_nil_iff]
        rw [← hs]; exact hsne
      · rw [hs, meanOpt, if_neg, List.length_map]
        simp only [List.isEmpty_iff, List.map_eq_nil_iff]
        rw [← hs]; exact hsne

/-- C5 witness: applying the theorem to the first weekly bucket of the
concrete `gapVec` dataset (label 2024-01-07, one contributing row). -/
theorem c5_resample_witness :
    (aggBucket 19729 (gapVec.filter (fun r => weekEnd r.date == 19729))).net_hhs_intake
      = ((gapVec.filter (fun r => weekEnd r.date == 19729)).map
          (fun r => r.net_hhs_intake)).sum := by
  have h := ((c5_resample gapVec).1
    (aggBucket 19729 (gapVec.filter (fun r => weekEnd r.date == 19729)))
    (List.mem_map.mpr ⟨0, List.mem_range.mpr (by decide), rfl⟩)).2.2
    (gapVec.filter (fun r => weekEnd r.date == 19729)) rfl (by decide)
  exact h.2.2.2

/-! ## C6 -/

/-- C6: the claim says a bucket with zero contributing rows is omitted.
False on the code: the pandas `resample` emits every bucket between the
first and the last key.  On the concrete dataset with reported rows
only on 2024-01-01 and 2024-01-15, the emitted weekly buckets include
the week ending 2024-01-14 (day 19736), into which no row falls. -/
theorem c6_counterexample :
    ¬ (∀ b ∈ resampleWeekly gapVec,
        gapVec.filter (fun r => weekEnd r.date == b.date) ≠ []) := by
  intro h
  have hmem : aggBucket 19736 (gapVec.filter (fun r => weekEnd r.date == 19736))
      ∈ resampleWeekly gapVec :=
    List.mem_map.mpr ⟨1, List.mem_range.mpr (by decide), rfl⟩
  exact h _ hmem (by decide)

/-- C6 (amended): `resample` emits one bucket for every week
(resp. calendar month) from the first reported date to the last,
whether or not any row falls into it; a bucket with zero contributing
rows is still emitted, carrying NaN means and a zero
`net_hhs_intake` sum, rather than being omitted. -/
theorem c6_every_bucket_emitted (r0 : MetricRow) (rs : List MetricRow) :
    (∀ j : ℕ, j ≤ (weekEnd (maxDate r0 rs) - weekEnd (minDate r0 rs)) / 7 →
        ∃ b ∈ resampleWeekly (r0 :: rs),
          b.date = weekEnd (minDate r0 rs) + 7 * j ∧
          ((r0 :: rs).filter (fun r => weekEnd r.date == b.date) = [] →
            b.total_system_load = none ∧ b.cbp_custody = none ∧
            b.hhs_care = none ∧ b.net_hhs_intake = 0)) ∧
    (∀ j : ℕ, j ≤ monthIdx (maxDate r0 rs) - monthIdx (minDate r0 rs) →
        ∃ b ∈ resampleMonthly (r0 :: rs),
          b.date = monthEndOfIdx (monthIdx (minDate r0 rs) + j) ∧
          ((r0 :: rs).filter
              (fun r => monthIdx r.date == monthIdx (minDate r0 rs) + j) = [] →
            b.total_system_load = none ∧ b.cbp_custody = none ∧
            b.hhs_care = none ∧ b.net_hhs_intake = 0)) := by
  constructor
  · intro j hj
    refine ⟨aggBucket (weekEnd (minDate r0 rs) + 7 * j)
      ((r0 :: rs).filter
        (fun r => weekEnd r.date == weekEnd (minDate r0 rs) + 7 * j)),
      List.mem_map.mpr ⟨j, List.mem_range.mpr (by omega), rfl⟩, rfl, ?_⟩
    intro hfil
    simp only [aggBucket] at hfil ⊢
    rw [hfil]
    refine ⟨rfl, rfl, rfl, rfl⟩
  · intro j hj
    refine ⟨aggBucket (monthEndOfIdx (monthIdx (minDate r0 rs) + j))
      ((r0 :: rs).filter
        (fun r => monthIdx r.date == monthIdx (minDate r0 rs) + j)),
      List.mem_map.mpr ⟨j, List.mem_range.mpr (by omega), rfl⟩, rfl, ?_⟩
    intro hfil
    simp only [aggBucket] at hfil ⊢
    rw [hfil]
    refine ⟨rfl, rfl, rfl, rfl⟩

/-- C6 amended-claim witness: on `gapVec` the week ending 2024-01-14
is emitted with no contributing rows, NaN aggregates and zero sum. -/
theorem c6_every_bucket_emitted_witness :
    ∃ b ∈ resampleWeekly gapVec,
      b.date = 19736 ∧ b.total_system_load = none ∧ b.net_hhs_intake = 0 := by
  obtain ⟨b, hb, hdate, himp⟩ :=
    (c6_every_bucket_emitted (mkRow 19723 10 1) [mkRow 19737 20 2]).1 1 (by decide)
  have hdate' : b.date = 19736 := by rw [hdate]; decide
  have hempty := himp (by rw [hdate']; decide)
  exact ⟨b, hb, hdate', hempty.1, hempty.2.2.2⟩

/-! ## C7 -/

/-- Evaluation: the 85th percentile of the two loads [0, 100] is
0 + 0.85·(100 − 0) = 85. -/
theorem quantile85_pairVals : quantile85 [0, 100] = some 85 := by
  have hs : ([0, 100] : List ℚ).insertionSort (· ≤ ·) = [0, 100] := by decide
  have hfn : (⌊((17 : ℚ) / 20 * ((1 : ℕ) : ℚ))⌋).toNat = 0 := by
    have hf : ⌊((17 : ℚ) / 20 * ((1 : ℕ) : ℚ))⌋ = 0 := by norm_num
    rw [hf]; rfl
  simp only [quantile85, List.isEmpty_cons, Bool.false_eq_true, if_false, hs,
    List.length_cons, List.length_nil, hfn]
  norm_num [List.getD_cons_succ, List.getD_cons_zero]

/-- Evaluation: on `pairVec` (loads 0 and 100, both intakes positive)
the load-100 row is flagged, i.e. one of the two rows. -/
theorem flaggedCount_pairVec : flaggedCount pairVec = 1 := by
  have hth : strainThreshold pairVec = some 85 := by
    have h : pairVec.filterMap (fun r => r.total_system_load) = [0, 100] := rfl
    rw [strainThreshold, h, quantile85_pairVals]
  rw [flaggedCount_eq]
  simp only [hth]
  decide

/-- C7: the claim says `compute_strain` never flags more than 15% of
the rows.  False on the code: with two reported rows of loads 0 and
100 and positive intakes, the interpolated threshold is 85 and the
load-100 row is flagged — 1 of 2 rows, 50% > 15%. -/
theorem c7_counterexample :
    ¬ ((flaggedCount pairVec : ℚ) ≤ 15 / 100 * (pairVec.length : ℚ)) := by
  rw [flaggedCount_pairVec]
  intro h
  have hlen : pairVec.length = 2 := rfl
  rw [hlen] at h
  norm_num at h

/-- C7 (amended): on a non-empty reported row set (with all loads
non-null) `compute_strain` flags at most
`(n−1) − ⌊0.85·(n−1)⌋` rows — the number of order statistics strictly
above the interpolation base.  This bound is `⌈0.15·(n−1)⌉`, which the
15%-of-`n` bound of the claim can undercut on small sets (with `n = 2`
one row, 50%, may legitimately be flagged). -/
theorem c7_strain_bound (rows : List MetricRow) (hne : rows ≠ [])
    (hall : ∀ r ∈ rows, r.total_system_load.isSome) :
    flaggedCount rows ≤ (rows.length - 1) - 17 * (rows.length - 1) / 20 := by
  obtain ⟨r0, rs, rfl⟩ := List.exists_cons_of_ne_nil hne
  obtain ⟨v0, hv0⟩ :=
    Option.isSome_iff_exists.mp (hall r0 (List.mem_cons_self _ _))
  have hLcons : (r0 :: rs).filterMap (fun r => r.total_system_load) =
      v0 :: rs.filterMap (fun r => r.total_system_load) := by
    rw [List.filterMap_cons, hv0]
  have hlenL : ((r0 :: rs).filterMap (fun r => r.total_system_load)).length =
      (r0 :: rs).length :=
    length_filterMap_of_isSome _ _ hall
  have hth : ∃ t : ℚ, strainThreshold (r0 :: rs) = some t := by
    rw [strainThreshold, hLcons]
    exact ⟨_, rfl⟩
  obtain ⟨t, hthv⟩ := hth
  have h1 : flaggedCount (r0 :: rs) =
      (r0 :: rs).countP (fun r => strainOf (some t) r) := by
    rw [flaggedCount_eq]
    simp only [hthv]
  have h2 := countP_strain_le_loads t (r0 :: rs)
  have hq : quantile85 (v0 :: rs.filterMap (fun r => r.total_system_load))
      = some t := by
    rw [← hLcons, ← strainThreshold]
    exact hthv
  have hge := quantile85_ge v0 (rs.filterMap (fun r => r.total_system_load)) t hq
  have hsorted :=
    List.sorted_insertionSort (α := ℚ) (· ≤ ·)
      (v0 :: rs.filterMap (fun r => r.total_system_load))
  have hslen : ((v0 :: rs.filterMap (fun r => r.total_system_load)).insertionSort
      (· ≤ ·)).length =
      (rs.filterMap (fun r => r.total_system_load)).length + 1 := by
    rw [(List.perm_insertionSort _ _).length_eq]
    simp
  have hcount := countP_gt_le _ hsorted t
    (17 * (rs.filterMap (fun r => r.total_system_load)).length / 20)
    (by rw [hslen]; omega) hge
  have hpermcount :
      (v0 :: rs.filterMap (fun r => r.total_system_load)).countP
          (fun x => decide (t < x)) =
      ((v0 :: rs.filterMap (fun r => r.total_system_load)).insertionSort
          (· ≤ ·)).countP (fun x => decide (t < x)) :=
    ((List.perm_insertionSort _ _).countP_eq _).symm
  rw [hLcons] at hlenL h2
  rw [h1]
  rw [hpermcount] at h2
  have hfin := le_trans h2 hcount
  rw [hslen] at hfin
  simp only [List.length_cons] at hlenL ⊢
  omega

/-- C7 amended-claim witness: on the seven-row spec vector the bound
is `6 − ⌊0.85·6⌋ = 1`, and indeed at most one row is flagged. -/
theorem c7_strain_bound_witness :
    flaggedCount strainVec ≤
      (strainVec.length - 1) - 17 * (strainVec.length - 1) / 20 :=
  c7_strain_bound strainVec (by decide) (by decide)
